import Mathlib

/-!
Verification development for the pixlet development render
coordination core: the loader package (server/loader/loader.go) and the
browser fan-out front end (server/browser). The Go code is shallowly
embedded: the single-threaded select loop of Loader.Run becomes a step
function on an explicit system state, Go channels become FIFO lists, and
the external collaborators (script loading, the applet runtime, image
encoding, the file system write) become explicit oracle parameters so
that each interaction of a cycle with them is visible in the state.
-/

namespace Pixlet

/-- Configuration: Go map from string keys to string values, modelled as an
association list (Go map iteration order is abstracted away; the JSON
marshaller below sorts keys, as encoding/json does for maps). -/
abbrev Config := List (String × String)

/-- The loaded applet handle (runtime.Applet). Only the field the loader
reads, SchemaJSON, is modelled; the runnable behavior lives in the oracle. -/
structure Applet where
  SchemaJSON : String
deriving DecidableEq

/-- One hex digit, lower case, for JSON escape sequences. -/
def hexDigit (n : Nat) : Char :=
  if n < 10 then Char.ofNat (48 + n) else Char.ofNat (87 + n)

/-- Escaping of a single character as done by the Go encoding/json string
encoder with the default HTML escaping (quotes, backslash, control
characters, the HTML-significant characters, U+2028 and U+2029). -/
def jsonEscapeChar (c : Char) : String :=
  if c = '"' then "\\\""
  else if c = '\\' then "\\\\"
  else if c = '\n' then "\\n"
  else if c = '\r' then "\\r"
  else if c = '\t' then "\\t"
  else if c.toNat < 32 then
    "\\u00" ++ String.singleton (hexDigit (c.toNat / 16)) ++ String.singleton (hexDigit (c.toNat % 16))
  else if c = '&' then "\\u0026"
  else if c = '<' then "\\u003c"
  else if c = '>' then "\\u003e"
  else if c.toNat = 0x2028 then "\\u2028"
  else if c.toNat = 0x2029 then "\\u2029"
  else String.singleton c

/-- A JSON string literal for s, as produced by encoding/json. -/
def jsonQuote (s : String) : String :=
  "\"" ++ String.join (s.toList.map jsonEscapeChar) ++ "\""

/-- Insertion into a key-sorted association list. -/
def insertSorted (kv : String × String) : List (String × String) → List (String × String)
  | [] => [kv]
  | x :: xs => if kv.1 ≤ x.1 then kv :: x :: xs else x :: insertSorted kv xs

/-- Sort an association list by key, as encoding/json sorts map keys. -/
def sortByKey : List (String × String) → List (String × String)
  | [] => []
  | x :: xs => insertSorted x (sortByKey xs)

/-- JSON marshalling of a Go map from string to string (json.Marshal): keys
sorted, each pair rendered as a quoted key, a colon and a quoted value,
pairs joined by commas inside braces. -/
def jsonMarshalMap (config : Config) : String :=
  "\x7b" ++
    String.intercalate ","
      ((sortByKey config).map fun kv => jsonQuote kv.1 ++ ":" ++ jsonQuote kv.2) ++
  "\x7d"

/-- Marshalling as Go json.Marshal applied to a map from string to string: string maps
always marshal successfully, but the call site checks the error, so the
result keeps the Except shape of the Go API. -/
def goMarshal (config : Config) : Except String String :=
  .ok (jsonMarshalMap config)

/-- The standard base64 alphabet (base64.StdEncoding). -/
def base64Alphabet : List Char :=
  "ABCDEFGHIJKLMNOPQRSTUVWXYZabcdefghijklmnopqrstuvwxyz0123456789+/".toList

/-- The base64 digit for a 6-bit value. -/
def b64Char (n : Nat) : Char := base64Alphabet.getD n 'A'

/-- Standard base64 encoding of a byte list, grouped three bytes into four
digits, padded with '=' (base64.StdEncoding.EncodeToString). -/
def base64Groups : List Nat → List Char
  | [] => []
  | [b1] => [b64Char (b1 / 4), b64Char (b1 % 4 * 16), '=', '=']
  | [b1, b2] => [b64Char (b1 / 4), b64Char (b1 % 4 * 16 + b2 / 16), b64Char (b2 % 16 * 4), '=']
  | b1 :: b2 :: b3 :: rest =>
      b64Char (b1 / 4) :: b64Char (b1 % 4 * 16 + b2 / 16) ::
      b64Char (b2 % 16 * 4 + b3 / 64) :: b64Char (b3 % 64) :: base64Groups rest

/-- base64.StdEncoding.EncodeToString. -/
def base64Encode (bs : List Nat) : String := String.mk (base64Groups bs)

/-- The Update record sent over the loader channels (loader.Update).
Errors are modelled by their message strings; nil error is none. -/
structure Update where
  Image : String
  ImageType : String
  Schema : String
  Err : Option String
deriving DecidableEq

/-- The mutable state and static settings of the loader (the fields of
loader.Loader other than the channels, which live in SysState, and the
fs handle, which lives in the oracle). initialLoadClosed models whether
the initialLoad channel has been closed (the Ready Gate released). -/
structure LoaderState where
  watch : Bool
  applet : Applet
  initialLoadClosed : Bool
  maxDuration : Nat
  timeout : Nat
  renderGif : Bool
  configOutFile : String
deriving DecidableEq

/-- A Go context carrying a deadline and a cause, as built by
context.WithTimeoutCause. Deadlines are in nanoseconds. -/
structure Ctx where
  deadlineNanos : Nat
  cause : String

/-- time.Millisecond in nanoseconds. -/
def Millisecond : Nat := 1000000

/-- context.WithTimeoutCause(context.Background(), d, cause) with d given
in milliseconds. -/
def withTimeoutCause (ms : Nat) (cause : String) : Ctx :=
  { deadlineNanos := ms * Millisecond, cause := cause }

/-- The runnable behavior of the current applet: how long one execution
takes, and what render tree (an abstract handle, here a Nat) or error it
produces for a given configuration. -/
structure AppBehavior where
  execNanos : Nat
  result : Config → Except String Nat

/-- Modelled from the spec: runtime.Applet.RunWithConfig (package runtime
is not under src/). Per the spec, execution runs under the deadline of the
supplied context and a deadline overrun surfaces as a failure carrying the
context cause (the configured timeout message); otherwise the own result of the applet
stands. -/
def RunWithConfig (ctx : Ctx) (behavior : AppBehavior) (config : Config) : Except String Nat :=
  if ctx.deadlineNanos < behavior.execNanos then .error ctx.cause
  else behavior.result config

/-- The external collaborators of one loader cycle: the outcome of
loadScript on the current file system, the runnable behavior of the applet, the
render pipeline (ScreensFromRoots ShowFullAnimation flag and the two
encoders, each taking the roots handle and the max duration), and the
outcome os.WriteFile would have at this moment. -/
structure Oracle where
  load : Except String Applet
  behavior : AppBehavior
  showFullAnimation : Nat → Bool
  encodeWebP : Nat → Nat → Except String (List Nat)
  encodeGIF : Nat → Nat → Except String (List Nat)
  write : Except String Unit

/-- Loader.markInitialLoadComplete: the select statement receives from the
closed channel if it can (already released: no-op), otherwise closes it. -/
def markInitialLoadComplete (closed : Bool) : Bool :=
  if closed then closed else true

/-- The tail of Loader.loadApplet after the watch-mode reload block: build
the timeout context, run the applet, and on success encode the screens,
honoring ShowFullAnimation by lifting the duration cap, returning the
base64 encoded image. -/
def runAndEncode (l : LoaderState) (o : Oracle) (config : Config) :
    LoaderState × Except String String :=
  let ctx := withTimeoutCause l.timeout ("timeout after " ++ toString l.timeout ++ "ms")
  match RunWithConfig ctx o.behavior config with
  | .error e => (l, .error ("error running script: " ++ e))
  | .ok roots =>
    let maxDuration := if o.showFullAnimation roots then 0 else l.maxDuration
    match (if l.renderGif then o.encodeGIF roots maxDuration else o.encodeWebP roots maxDuration) with
    | .error e => (l, .error ("error rendering: " ++ e))
    | .ok img => (l, .ok (base64Encode img))

/-- Loader.loadApplet: in watch mode reload the script first, releasing the
Ready Gate whether or not the reload succeeded; a reload failure is
returned as the outcome without touching the stored applet; on success the
stored applet is replaced wholesale; then execute and encode. -/
def loadApplet (l : LoaderState) (o : Oracle) (config : Config) :
    LoaderState × Except String String :=
  if l.watch then
    let l1 := { l with initialLoadClosed := markInitialLoadComplete l.initialLoadClosed }
    match o.load with
    | .error e => (l1, .error e)
    | .ok app => runAndEncode { l1 with applet := app } o config
  else
    runAndEncode l o config

/-- The full state of the running loop: the loader, the retained config
local to Loader.Run, the three input channels as FIFO buffers, the two
output channels as append-only logs (updatesChan) and a FIFO buffer
(resultsChan), and the content of the optional debug output file. -/
structure SysState where
  loader : LoaderState
  config : Config
  configChanges : List Config
  requestedChanges : List Unit
  fileChanges : List Unit
  updatesChan : List Update
  resultsChan : List Update
  debugFile : Option String
deriving DecidableEq

/-- The branch of the select statement in Loader.Run chosen for one
iteration. -/
inductive Branch
  | configChange
  | requested
  | fileChange
deriving DecidableEq

/-- The two panic sites in the requestedChanges branch of Loader.Run. -/
inductive PanicReason
  | marshalFail (e : String)
  | writeFail (e : String)
deriving DecidableEq

/-- The Update built by one cycle of Loader.Run around its loadApplet
call. The construction is shared verbatim by the requestedChanges and
fileChanges branches except that only the latter (withSchema true)
attaches the schema of the reloaded applet, and only on success; on failure
only Err is set and every other field keeps its zero value. -/
def cycleUpdate (l : LoaderState) (o : Oracle) (c : Config) (withSchema : Bool) : Update :=
  match (loadApplet l o c).2 with
  | .error e => { Image := "", ImageType := "", Schema := "", Err := some e }
  | .ok img =>
    { Image := img
      ImageType := if (loadApplet l o c).1.renderGif then "gif" else "webp"
      Schema := if withSchema then (loadApplet l o c).1.applet.SchemaJSON else ""
      Err := none }

/-- One iteration of the select loop in Loader.Run. Choosing a branch
whose channel is empty is a no-op (the select would not have picked it).
The requestedChanges branch marshals the retained config, writes it to
the debug file when one is configured (panicking if marshalling or the
write fails), loads and renders, and sends the resulting Update on both
updatesChan and resultsChan. The fileChanges branch loads and renders, on
success also attaching the schema of the (freshly reloaded) applet, and sends
the Update only on updatesChan. The configChanges branch replaces the
retained config. -/
def runStep (st : SysState) (b : Branch) (o : Oracle) : Except PanicReason SysState :=
  match b with
  | .configChange =>
    match st.configChanges with
    | [] => .ok st
    | c :: rest => .ok { st with config := c, configChanges := rest }
  | .requested =>
    match st.requestedChanges with
    | [] => .ok st
    | _ :: rest =>
      match goMarshal st.config with
      | .error e => .error (.marshalFail e)
      | .ok byteSlice =>
        let afterWrite : Except PanicReason (Option String) :=
          if st.loader.configOutFile ≠ "" then
            match o.write with
            | .error e => .error (.writeFail e)
            | .ok _ => .ok (some byteSlice)
          else .ok st.debugFile
        match afterWrite with
        | .error p => .error p
        | .ok newFile =>
          let up := cycleUpdate st.loader o st.config false
          .ok { st with loader := (loadApplet st.loader o st.config).1,
                        requestedChanges := rest, debugFile := newFile,
                        updatesChan := st.updatesChan ++ [up],
                        resultsChan := st.resultsChan ++ [up] }
  | .fileChange =>
    match st.fileChanges with
    | [] => .ok st
    | _ :: rest =>
      let up := cycleUpdate st.loader o st.config true
      .ok { st with loader := (loadApplet st.loader o st.config).1, fileChanges := rest,
                    updatesChan := st.updatesChan ++ [up] }

/-- The state of one caller of Loader.LoadApplet (the Gateway). pc 0: about
to send its config on configChanges; pc 1: about to send the request
trigger on requestedChanges; pc 2: blocked receiving from resultsChan;
pc 3: returned, holding the received result. -/
structure CallerSt where
  pc : Nat
  cfg : Config
  result : Option Update
deriving DecidableEq

/-- One step of a LoadApplet caller against the shared channels. Receiving
from an empty resultsChan blocks (no-op until a result is available). -/
def callerStep (sys : SysState) (c : CallerSt) : SysState × CallerSt :=
  match c.pc with
  | 0 => ({ sys with configChanges := sys.configChanges ++ [c.cfg] }, { c with pc := 1 })
  | 1 => ({ sys with requestedChanges := sys.requestedChanges ++ [()] }, { c with pc := 2 })
  | 2 =>
    match sys.resultsChan with
    | [] => (sys, c)
    | r :: rfree => ({ sys with resultsChan := rfree }, { c with pc := 3, result := some r })
  | _ => (sys, c)

/-- The whole system with two concurrent LoadApplet callers A and B plus
the loader loop. -/
structure TwoSys where
  sys : SysState
  A : CallerSt
  B : CallerSt
deriving DecidableEq

/-- A scheduling label: run one step of caller A, of caller B, or one
iteration of the loader loop on the given select branch. -/
inductive Lbl
  | stepA
  | stepB
  | loop (b : Branch)
deriving DecidableEq

/-- One interleaving step of the two-caller system. -/
def tstep (t : TwoSys) (l : Lbl) (o : Oracle) : Except PanicReason TwoSys :=
  match l with
  | .stepA =>
    let sc := callerStep t.sys t.A
    .ok { t with sys := sc.1, A := sc.2 }
  | .stepB =>
    let sc := callerStep t.sys t.B
    .ok { t with sys := sc.1, B := sc.2 }
  | .loop br => (runStep t.sys br o).map fun s => { t with sys := s }

/-- Run the two-caller system along a schedule. -/
def trun (t : TwoSys) (ls : List Lbl) (o : Oracle) : Except PanicReason TwoSys :=
  match ls with
  | [] => .ok t
  | l :: rest =>
    match tstep t l o with
    | .error p => .error p
    | .ok t2 => trun t2 rest o

/-- The websocket event types of the fanout package, as used by
Browser.updateWatcher (EventTypeImage, EventTypeErr, EventTypeSchema). -/
inductive EventType
  | image
  | err
  | schema
deriving DecidableEq, BEq

/-- fanout.WebsocketEvent as constructed in Browser.updateWatcher. -/
structure WebsocketEvent where
  EType : EventType
  Message : String
  ImageType : String := ""
deriving DecidableEq, BEq

/-- Broadcast appends the event to the log of events sent to the fanout. -/
def broadcast (sent : List WebsocketEvent) (e : WebsocketEvent) : List WebsocketEvent :=
  sent ++ [e]

/-- Browser.updateWatcher processing one Update from the update channel:
always broadcast an Image event carrying the image of the update (empty on
failure), then an Error event when the update carries an error, then a
Schema event when the update carries a non-empty schema. -/
def updateWatcherStep (serveGif : Bool) (up : Update) (sent : List WebsocketEvent) :
    List WebsocketEvent :=
  let img_type := if serveGif then "gif" else "webp"
  let sent1 := broadcast sent { EType := .image, Message := up.Image, ImageType := img_type }
  let sent2 :=
    match up.Err with
    | some e => broadcast sent1 { EType := .err, Message := e }
    | none => sent1
  if up.Schema ≠ "" then broadcast sent2 { EType := .schema, Message := up.Schema }
  else sent2

/-- Browser.websocketHandler: when not in watch mode, return immediately,
attempting no upgrade and registering nothing; otherwise attempt the
upgrade and, on success, register the new connection with the fanout. The
Bool records whether an upgrade was attempted; the list is the client
registry of the fanout. -/
def websocketHandler (watch : Bool) (upgrade : Except String Nat) (clients : List Nat) :
    Bool × List Nat :=
  if !watch then (false, clients)
  else
    match upgrade with
    | .error _ => (true, clients)
    | .ok conn => (true, clients ++ [conn])

/-- Configuration submitted by caller A in the concrete scenarios. -/
def cfgA : Config := [("k", "A")]

/-- Configuration submitted by caller B in the concrete scenarios. -/
def cfgB : Config := [("k", "B")]

/-- A concrete oracle: loading succeeds, execution is instantaneous and
maps the configuration of caller A to render tree 1 and anything else to 2, the
encoders return the one-byte image equal to the tree handle, and the debug
write succeeds. -/
def cexOracle : Oracle :=
  { load := .ok { SchemaJSON := "" }
    behavior := { execNanos := 0, result := fun c => .ok (if c = cfgA then 1 else 2) }
    showFullAnimation := fun _ => false
    encodeWebP := fun roots _ => .ok [roots]
    encodeGIF := fun roots _ => .ok [roots]
    write := .ok () }

/-- A concrete loader in watch mode with no debug file. -/
def cexLoader : LoaderState :=
  { watch := true, applet := { SchemaJSON := "" }, initialLoadClosed := false,
    maxDuration := 15000, timeout := 30000, renderGif := false, configOutFile := "" }

/-- The idle system state around cexLoader: empty channels, no retained
config, no debug file. -/
def cexSys : SysState :=
  { loader := cexLoader, config := [], configChanges := [], requestedChanges := [],
    fileChanges := [], updatesChan := [], resultsChan := [], debugFile := none }

/-- Both callers poised to submit their configurations. -/
def cexInit : TwoSys :=
  { sys := cexSys
    A := { pc := 0, cfg := cfgA, result := none }
    B := { pc := 0, cfg := cfgB, result := none } }

/-- A legal interleaving: A submits completely, then B submits completely,
the loop serves both cycles in order, then B collects a result before A
does. -/
def cexSchedule : List Lbl :=
  [.stepA, .stepA, .stepB, .stepB,
   .loop .configChange, .loop .requested,
   .loop .configChange, .loop .requested,
   .stepB, .stepA]

/-- Recognizer for Image events. -/
def isImageEvent : WebsocketEvent → Bool
  | { EType := .image, .. } => true
  | _ => false

/-- Recognizer for Error events. -/
def isErrEvent : WebsocketEvent → Bool
  | { EType := .err, .. } => true
  | _ => false

/-- Recognizer for Schema events. -/
def isSchemaEvent : WebsocketEvent → Bool
  | { EType := .schema, .. } => true
  | _ => false

/-- An idle system state with one pending on-demand request. -/
def wReqSt : SysState := { cexSys with requestedChanges := [()] }

/-- The state after serving the pending request of wReqSt. -/
def wReqSt2 : SysState := (runStep wReqSt .requested cexOracle).toOption.getD wReqSt

/-- The Update produced by that cycle: the retained config is empty, so the
behavior yields render tree 2, encoded as the one byte 2, base64 Ag==. -/
def wUpdate : Update := { Image := "Ag==", ImageType := "webp", Schema := "", Err := none }

/-- A loader with a 50 millisecond timeout, not watching. -/
def c5Loader : LoaderState := { cexLoader with timeout := 50, watch := false }

/-- An oracle whose applet execution takes 500 milliseconds. -/
def c5Oracle : Oracle :=
  { cexOracle with behavior := { execNanos := 500 * Millisecond, result := fun _ => .ok 1 } }

/-- An oracle whose script reload fails. -/
def c6Oracle : Oracle := { cexOracle with load := .error "load failed" }

/-- An idle system state with one pending configuration change. -/
def c7St : SysState := { cexSys with configChanges := [cfgA] }

/-- The state after the loop consumes that configuration change. -/
def c7St2 : SysState := (runStep c7St .configChange cexOracle).toOption.getD c7St

/-- A system state with a debug output path configured, retained
configuration mapping x to 1, and one pending on-demand request. -/
def c8St : SysState :=
  { cexSys with loader := { cexLoader with configOutFile := "debug.json" },
                config := [("x", "1")], requestedChanges := [()] }

/-- An oracle whose debug file write fails. -/
def c10Oracle : Oracle := { cexOracle with write := .error "disk full" }

theorem stringMk_ne_empty (l : List Char) (h : l ≠ []) : String.mk l ≠ "" := by
  intro hc
  apply h
  have hd : (String.mk l).data = ("" : String).data := by rw [hc]
  simpa using hd

theorem base64Groups_ne_nil (bs : List Nat) (h : bs ≠ []) : base64Groups bs ≠ [] := by
  match bs with
  | [] => exact absurd rfl h
  | [b1] => simp [base64Groups]
  | [b1, b2] => simp [base64Groups]
  | b1 :: b2 :: b3 :: rest => simp [base64Groups]

theorem base64Encode_ne_empty (bs : List Nat) (h : bs ≠ []) : base64Encode bs ≠ "" :=
  stringMk_ne_empty _ (base64Groups_ne_nil bs h)

theorem markInitialLoadComplete_eq_true (s : Bool) : markInitialLoadComplete s = true := by
  cases s <;> rfl

theorem runAndEncode_fst (l : LoaderState) (o : Oracle) (c : Config) :
    (runAndEncode l o c).1 = l := by
  unfold runAndEncode
  dsimp only
  split
  · rfl
  · split <;> rfl

/-- C4: the Ready Gate (the initialLoad channel) is released at most once:
a release on an already released gate is a no-op; the release operation is
idempotent and never faults (it is total); and in watch mode the gate is
released by loadApplet at the completion of every (in particular the
first) reload attempt, whether or not the reload succeeded. -/
theorem c4_ready_gate_once (l : LoaderState) (o : Oracle) (c : Config) (s : Bool)
    (hw : l.watch = true) :
    markInitialLoadComplete true = true ∧
    markInitialLoadComplete (markInitialLoadComplete s) = markInitialLoadComplete s ∧
    (loadApplet l o c).1.initialLoadClosed = true := by
  refine ⟨rfl, ?_, ?_⟩
  · cases s <;> rfl
  · unfold loadApplet
    rw [hw]
    simp only [if_true]
    cases hl : o.load with
    | error e => simp [markInitialLoadComplete_eq_true]
    | ok app => simp [runAndEncode_fst, markInitialLoadComplete_eq_true]

theorem c4_ready_gate_once_witness :
    markInitialLoadComplete true = true ∧
    markInitialLoadComplete (markInitialLoadComplete false) = markInitialLoadComplete false ∧
    (loadApplet cexLoader cexOracle []).1.initialLoadClosed = true :=
  c4_ready_gate_once cexLoader cexOracle [] false rfl

/-- C5: every execution runs under a deadline of exactly the configured
timeout in milliseconds: when the execution would overrun that deadline
the outcome of the cycle is the failure carrying the configured duration (the
context cause, a timeout-after message, wrapped by the run-error message)
and no image, and when the execution fits within the deadline the own result of the applet
stands. -/
theorem c5_deadline_timeout (l : LoaderState) (o : Oracle) (c : Config) :
    (l.timeout * Millisecond < o.behavior.execNanos →
      (runAndEncode l o c).2 =
        .error ("error running script: " ++ ("timeout after " ++ toString l.timeout ++ "ms"))) ∧
    (o.behavior.execNanos ≤ l.timeout * Millisecond →
      RunWithConfig (withTimeoutCause l.timeout ("timeout after " ++ toString l.timeout ++ "ms"))
        o.behavior c = o.behavior.result c) := by
  constructor
  · intro h
    unfold runAndEncode RunWithConfig withTimeoutCause
    simp [h]
  · intro h
    unfold RunWithConfig withTimeoutCause
    simp [Nat.not_lt.mpr h]

theorem c5_deadline_timeout_witness :
    (runAndEncode c5Loader c5Oracle []).2 =
      .error "error running script: timeout after 50ms" :=
  (c5_deadline_timeout c5Loader c5Oracle []).1 (by decide)

/-- C6: when a watch-mode reload fails, loadApplet returns the reload
error unchanged as the outcome of the cycle, releases the Ready Gate, and
leaves the previously loaded applet untouched. -/
theorem c6_reload_failure_frame (l : LoaderState) (o : Oracle) (c : Config) (e : String)
    (hw : l.watch = true) (hl : o.load = .error e) :
    (loadApplet l o c).2 = .error e ∧
    (loadApplet l o c).1.applet = l.applet ∧
    (loadApplet l o c).1.initialLoadClosed = true := by
  unfold loadApplet
  rw [hw]
  simp [hl, markInitialLoadComplete_eq_true]

theorem c6_reload_failure_frame_witness :
    (loadApplet cexLoader c6Oracle []).2 = .error "load failed" ∧
    (loadApplet cexLoader c6Oracle []).1.applet = cexLoader.applet ∧
    (loadApplet cexLoader c6Oracle []).1.initialLoadClosed = true :=
  c6_reload_failure_frame cexLoader c6Oracle [] "load failed" rfl rfl

/-- C9: the websocket handler admits a live connection only in watch mode:
with watch false it returns immediately, attempting no upgrade and leaving
the client registry unchanged, so an initially empty registry stays
empty. -/
theorem c9_websocket_requires_watch (u : Except String Nat) (clients : List Nat) :
    websocketHandler false u clients = (false, clients) ∧
    websocketHandler false u [] = (false, []) := by
  constructor <;> rfl

/-- C7: consuming a configuration update replaces the retained config
wholesale and has no other effect: no Update on updatesChan or
resultsChan, no render cycle, loader (applet and Ready Gate), pending
request and file-change queues and the debug file all unchanged. -/
theorem c7_config_update_frame (st : SysState) (o : Oracle) (c : Config) (rest : List Config)
    (h : st.configChanges = c :: rest) :
    ∀ st2, runStep st .configChange o = .ok st2 →
      st2.config = c ∧ st2.configChanges = rest ∧ st2.loader = st.loader ∧
      st2.updatesChan = st.updatesChan ∧ st2.resultsChan = st.resultsChan ∧
      st2.requestedChanges = st.requestedChanges ∧ st2.fileChanges = st.fileChanges ∧
      st2.debugFile = st.debugFile := by
  intro st2 hstep
  unfold runStep at hstep
  rw [h] at hstep
  simp only [Except.ok.injEq] at hstep
  subst hstep
  simp

theorem c7_config_update_frame_witness :
    c7St2.config = cfgA ∧ c7St2.configChanges = [] ∧ c7St2.loader = c7St.loader ∧
    c7St2.updatesChan = c7St.updatesChan ∧ c7St2.resultsChan = c7St.resultsChan ∧
    c7St2.requestedChanges = c7St.requestedChanges ∧ c7St2.fileChanges = c7St.fileChanges ∧
    c7St2.debugFile = c7St.debugFile :=
  c7_config_update_frame c7St cexOracle cfgA [] rfl c7St2 rfl

/-- C8: with a debug output path configured, an on-demand cycle marshals
the retained configuration to JSON and writes it to the debug file,
replacing any prior content, for every behavior of the render oracle (in
particular the written content never depends on the outcome of the render: it
is written before the render executes). -/
theorem c8_debug_write (st : SysState) (o : Oracle) (rest : List Unit)
    (hfile : st.loader.configOutFile ≠ "")
    (hreq : st.requestedChanges = () :: rest)
    (hw : o.write = .ok ()) :
    (runStep st .requested o).map SysState.debugFile = .ok (some (jsonMarshalMap st.config)) := by
  unfold runStep
  rw [hreq]
  simp [goMarshal, hfile, hw, Except.map]

theorem c8_debug_write_witness :
    (runStep c8St .requested cexOracle).map SysState.debugFile =
      .ok (some "\x7b\"x\":\"1\"\x7d") :=
  c8_debug_write c8St cexOracle [] (by decide) rfl rfl

/-- C10: on an on-demand cycle with a debug path configured, a failing
debug-file write panics (terminating the loop) just like a marshal
failure would, and when the write succeeds the cycle completes normally:
no panic branch is reached. -/
theorem c10_write_failure_panics (st : SysState) (o : Oracle) (rest : List Unit) (e : String)
    (hreq : st.requestedChanges = () :: rest)
    (hfile : st.loader.configOutFile ≠ "") :
    (o.write = .error e → runStep st .requested o = .error (.writeFail e)) ∧
    (o.write = .ok () → ((runStep st .requested o).toOption.isSome = true)) := by
  constructor
  · intro hw
    unfold runStep
    rw [hreq]
    simp [goMarshal, hfile, hw]
  · intro hw
    unfold runStep
    rw [hreq]
    simp [goMarshal, hfile, hw, Except.toOption]

theorem c10_write_failure_panics_witness :
    runStep c8St .requested c10Oracle = .error (.writeFail "disk full") ∧
    (runStep c8St .requested cexOracle).toOption.isSome = true :=
  ⟨(c10_write_failure_panics c8St c10Oracle [] "disk full" rfl (by decide)).1 rfl,
   (c10_write_failure_panics c8St cexOracle [] "disk full" rfl (by decide)).2 rfl⟩

theorem runAndEncode_ok_ne_empty (l : LoaderState) (o : Oracle) (c : Config)
    (hW : ∀ r m bs, o.encodeWebP r m = .ok bs → bs ≠ [])
    (hG : ∀ r m bs, o.encodeGIF r m = .ok bs → bs ≠ [])
    (img : String) (h : (runAndEncode l o c).2 = .ok img) : img ≠ "" := by
  unfold runAndEncode at h
  dsimp only at h
  split at h
  · simp at h
  · split at h
    · simp at h
    · simp only [Except.ok.injEq] at h
      rename_i bytes heq
      subst h
      by_cases hg : l.renderGif = true
      · rw [if_pos hg] at heq
        exact base64Encode_ne_empty _ (hG _ _ _ heq)
      · rw [if_neg hg] at heq
        exact base64Encode_ne_empty _ (hW _ _ _ heq)

theorem loadApplet_ok_ne_empty (l : LoaderState) (o : Oracle) (c : Config)
    (hW : ∀ r m bs, o.encodeWebP r m = .ok bs → bs ≠ [])
    (hG : ∀ r m bs, o.encodeGIF r m = .ok bs → bs ≠ [])
    (img : String) (h : (loadApplet l o c).2 = .ok img) : img ≠ "" := by
  unfold loadApplet at h
  by_cases hw : l.watch = true
  · rw [if_pos hw] at h
    dsimp only at h
    split at h
    · simp at h
    · exact runAndEncode_ok_ne_empty _ o c hW hG img h
  · rw [if_neg hw] at h
    exact runAndEncode_ok_ne_empty _ o c hW hG img h

theorem cycleUpdate_exclusive (l : LoaderState) (o : Oracle) (c : Config) (ws : Bool)
    (hW : ∀ r m bs, o.encodeWebP r m = .ok bs → bs ≠ [])
    (hG : ∀ r m bs, o.encodeGIF r m = .ok bs → bs ≠ []) :
    ((cycleUpdate l o c ws).Image ≠ "" ∧ (cycleUpdate l o c ws).Err = none) ∨
    ((cycleUpdate l o c ws).Image = "" ∧ (cycleUpdate l o c ws).Err ≠ none) := by
  unfold cycleUpdate
  split
  · right
    simp
  · left
    rename_i img heq
    exact ⟨loadApplet_ok_ne_empty l o c hW hG img heq, rfl⟩

theorem cycleUpdate_schema_off (l : LoaderState) (o : Oracle) (c : Config) :
    (cycleUpdate l o c false).Schema = "" := by
  unfold cycleUpdate
  split <;> rfl

theorem runStep_requested_nil (st : SysState) (o : Oracle)
    (hreq : st.requestedChanges = []) : runStep st .requested o = .ok st := by
  unfold runStep
  rw [hreq]

theorem runStep_fileChange_nil (st : SysState) (o : Oracle)
    (hfc : st.fileChanges = []) : runStep st .fileChange o = .ok st := by
  unfold runStep
  rw [hfc]

theorem runStep_requested_shape (st : SysState) (o : Oracle) (rest : List Unit)
    (hreq : st.requestedChanges = () :: rest) (st2 : SysState)
    (h : runStep st .requested o = .ok st2) :
    st2.updatesChan = st.updatesChan ++ [cycleUpdate st.loader o st.config false] ∧
    st2.resultsChan = st.resultsChan ++ [cycleUpdate st.loader o st.config false] := by
  unfold runStep at h
  rw [hreq] at h
  dsimp only [goMarshal] at h
  by_cases hc : st.loader.configOutFile ≠ ""
  · rw [if_pos hc] at h
    cases hw : o.write with
    | error e =>
      rw [hw] at h
      simp at h
    | ok u =>
      rw [hw] at h
      simp only [Except.ok.injEq] at h
      subst h
      exact ⟨rfl, rfl⟩
  · rw [if_neg hc] at h
    simp only [Except.ok.injEq] at h
    subst h
    exact ⟨rfl, rfl⟩

theorem runStep_fileChange_shape (st : SysState) (o : Oracle) (rest : List Unit)
    (hfc : st.fileChanges = () :: rest) (st2 : SysState)
    (h : runStep st .fileChange o = .ok st2) :
    st2.updatesChan = st.updatesChan ++ [cycleUpdate st.loader o st.config true] ∧
    st2.resultsChan = st.resultsChan := by
  unfold runStep at h
  rw [hfc] at h
  simp only [Except.ok.injEq] at h
  subst h
  exact ⟨rfl, rfl⟩

theorem runStep_configChange_results (st : SysState) (o : Oracle) (st2 : SysState)
    (h : runStep st .configChange o = .ok st2) : st2.resultsChan = st.resultsChan := by
  unfold runStep at h
  cases hcc : st.configChanges with
  | nil =>
    rw [hcc] at h
    simp only [Except.ok.injEq] at h
    subst h
    rfl
  | cons c rest =>
    rw [hcc] at h
    simp only [Except.ok.injEq] at h
    subst h
    rfl

/-- C2: the Update produced by a completed cycle carries exactly one of a
non-empty image and an error (never both, never neither, granted the
external encoders produce non-empty image bytes on success), and its
Schema field can be non-empty only on a file-change cycle: an on-demand
cycle always produces an empty Schema. -/
theorem c2_outcome_exclusivity (st : SysState) (o : Oracle)
    (hW : ∀ r m bs, o.encodeWebP r m = .ok bs → bs ≠ [])
    (hG : ∀ r m bs, o.encodeGIF r m = .ok bs → bs ≠ []) :
    (∀ st2 u, runStep st .requested o = .ok st2 →
      st2.updatesChan = st.updatesChan ++ [u] →
      (((u.Image ≠ "" ∧ u.Err = none) ∨ (u.Image = "" ∧ u.Err ≠ none)) ∧ u.Schema = "")) ∧
    (∀ st2 u, runStep st .fileChange o = .ok st2 →
      st2.updatesChan = st.updatesChan ++ [u] →
      ((u.Image ≠ "" ∧ u.Err = none) ∨ (u.Image = "" ∧ u.Err ≠ none))) := by
  constructor
  · intro st2 u hstep hupd
    cases hreq : st.requestedChanges with
    | nil =>
      rw [runStep_requested_nil st o hreq] at hstep
      simp only [Except.ok.injEq] at hstep
      subst hstep
      simp at hupd
    | cons hd rest =>
      have hshape := runStep_requested_shape st o rest hreq st2 hstep
      rw [hshape.1] at hupd
      have hu : cycleUpdate st.loader o st.config false = u := by
        simpa using hupd
      subst hu
      exact ⟨cycleUpdate_exclusive st.loader o st.config false hW hG,
             cycleUpdate_schema_off st.loader o st.config⟩
  · intro st2 u hstep hupd
    cases hfc : st.fileChanges with
    | nil =>
      rw [runStep_fileChange_nil st o hfc] at hstep
      simp only [Except.ok.injEq] at hstep
      subst hstep
      simp at hupd
    | cons hd rest =>
      have hshape := runStep_fileChange_shape st o rest hfc st2 hstep
      rw [hshape.1] at hupd
      have hu : cycleUpdate st.loader o st.config true = u := by
        simpa using hupd
      subst hu
      exact cycleUpdate_exclusive st.loader o st.config true hW hG

theorem cexOracle_webP_ne_nil :
    ∀ r m bs, cexOracle.encodeWebP r m = .ok bs → bs ≠ [] := by
  intro r m bs h
  simp only [cexOracle, Except.ok.injEq] at h
  subst h
  simp

theorem cexOracle_gif_ne_nil :
    ∀ r m bs, cexOracle.encodeGIF r m = .ok bs → bs ≠ [] := by
  intro r m bs h
  simp only [cexOracle, Except.ok.injEq] at h
  subst h
  simp

theorem c2_outcome_exclusivity_witness :
    (((wUpdate.Image ≠ "" ∧ wUpdate.Err = none) ∨
      (wUpdate.Image = "" ∧ wUpdate.Err ≠ none)) ∧ wUpdate.Schema = "") :=
  (c2_outcome_exclusivity wReqSt cexOracle cexOracle_webP_ne_nil cexOracle_gif_ne_nil).1
    wReqSt2 wUpdate rfl rfl

/-- C3: for one Update received by the update watcher, the broadcast
stream is always exactly one Image event (carrying the image of the update,
empty on failure), then an Error event exactly when the update carries an
error (with its message), then a Schema event exactly when the update
carries a non-empty schema — in the order Image, Error, Schema (the full
stream is the image part, then the error part, then the schema part, and
it starts with the Image event). -/
theorem c3_hub_event_stream (g : Bool) (up : Update) :
    ((updateWatcherStep g up []).filter isImageEvent =
      [{ EType := .image, Message := up.Image, ImageType := if g then "gif" else "webp" }]) ∧
    ((updateWatcherStep g up []).filter isErrEvent =
      match up.Err with
      | some e => [{ EType := .err, Message := e, ImageType := "" }]
      | none => []) ∧
    ((updateWatcherStep g up []).filter isSchemaEvent =
      if up.Schema ≠ "" then [{ EType := .schema, Message := up.Schema, ImageType := "" }]
      else []) ∧
    (updateWatcherStep g up [] =
      (updateWatcherStep g up []).filter isImageEvent ++
      (updateWatcherStep g up []).filter isErrEvent ++
      (updateWatcherStep g up []).filter isSchemaEvent) ∧
    ((updateWatcherStep g up []).head? =
      some { EType := .image, Message := up.Image, ImageType := if g then "gif" else "webp" }) := by
  cases hE : up.Err with
  | none =>
    by_cases hS : up.Schema = "" <;>
      simp [updateWatcherStep, broadcast, hE, hS, isImageEvent, isErrEvent, isSchemaEvent,
            List.filter]
  | some e =>
    by_cases hS : up.Schema = "" <;>
      simp [updateWatcherStep, broadcast, hE, hS, isImageEvent, isErrEvent, isSchemaEvent,
            List.filter]

/-- C1 counterexample: with both callers submitting their configurations
and request triggers in strict order (A completely, then B completely),
the loop serves the request of A first (producing the image AQ== rendered from
the configuration of A, recorded first on updatesChan) and the request of B second
(producing Ag== from the configuration of B); but because both callers read
the single shared resultsChan, and B reads first, caller A returns with
the outcome of the cycle of B (Ag==) and caller B with the outcome of the cycle of A
 (AQ==), and the two outcomes differ — refuting the claim that
concurrent callers never observe the outcome of the other. -/
theorem c1_counterexample :
    ((trun cexInit cexSchedule cexOracle).map
        (fun t => (t.A.result, t.B.result, t.sys.updatesChan)) =
      .ok (some { Image := "Ag==", ImageType := "webp", Schema := "", Err := none },
           some { Image := "AQ==", ImageType := "webp", Schema := "", Err := none },
           [{ Image := "AQ==", ImageType := "webp", Schema := "", Err := none },
            { Image := "Ag==", ImageType := "webp", Schema := "", Err := none }])) ∧
    ({ Image := "AQ==", ImageType := "webp", Schema := "", Err := none } : Update) ≠
      { Image := "Ag==", ImageType := "webp", Schema := "", Err := none } :=
  ⟨rfl, by decide⟩

/-- C1 (amended): every outcome delivered on resultsChan originates from
an on-demand cycle — the file-change and configuration branches leave
resultsChan untouched, and an on-demand cycle appends to resultsChan
exactly the updates it appends to updatesChan (the outcome of its own cycle) —
but concurrent callers may still collect the outcomes of each other from the
shared channel, as the counterexample shows. -/
theorem c1_results_provenance (st : SysState) (o : Oracle) :
    (∀ st2, runStep st .fileChange o = .ok st2 → st2.resultsChan = st.resultsChan) ∧
    (∀ st2, runStep st .configChange o = .ok st2 → st2.resultsChan = st.resultsChan) ∧
    (∀ st2, runStep st .requested o = .ok st2 →
      st2.resultsChan = st.resultsChan ++ st2.updatesChan.drop st.updatesChan.length) := by
  refine ⟨?_, ?_, ?_⟩
  · intro st2 h
    cases hfc : st.fileChanges with
    | nil =>
      rw [runStep_fileChange_nil st o hfc] at h
      simp only [Except.ok.injEq] at h
      subst h
      rfl
    | cons hd rest => exact (runStep_fileChange_shape st o rest hfc st2 h).2
  · intro st2 h
    exact runStep_configChange_results st o st2 h
  · intro st2 h
    cases hreq : st.requestedChanges with
    | nil =>
      rw [runStep_requested_nil st o hreq] at h
      simp only [Except.ok.injEq] at h
      subst h
      simp
    | cons hd rest =>
      obtain ⟨hu, hr⟩ := runStep_requested_shape st o rest hreq st2 h
      rw [hr, hu]
      simp

theorem c1_results_provenance_witness :
    wReqSt2.resultsChan =
      wReqSt.resultsChan ++ wReqSt2.updatesChan.drop wReqSt.updatesChan.length :=
  (c1_results_provenance wReqSt cexOracle).2.2 wReqSt2 rfl

end Pixlet
